import Mathlib

/-!
# Verification of the `pushd` directory-guard library

A shallow embedding of `src/lib.rs` from the `pushd` crate. The crate
provides a `Pushd` guard that changes the process's current directory on
construction and restores the original directory when dropped.

The OS environment (`env::current_dir`, `env::set_current_dir`) is modelled
as an explicit `World` state carrying the current directory together with an
oracle describing which OS calls fail and with which `io::Error`. Every
operation of the crate is translated as a pure function threading the
`World` through.
-/

namespace Pushdlib

/-- Paths (`std::path::PathBuf`) are modelled as strings. -/
abbrev Path := String

/-- The relevant values of Rust's `io::ErrorKind`: the drop logic only ever
distinguishes `NotFound` from everything else. -/
inductive ErrorKind where
  | notFound
  | permissionDenied
  | other
deriving DecidableEq, Repr

/-- Model of Rust's `io::Error`: a kind plus the OS error text used when the
error is displayed. -/
structure IoError where
  kind : ErrorKind
  message : String
deriving DecidableEq, Repr

/-- The `PushdError` enum from `src/lib.rs`:
`GetCurrentDir { source }` wraps the `io::Error` from `env::current_dir`,
`SetCurrentDir { path, source }` wraps the `io::Error` from
`env::set_current_dir` together with the attempted path. -/
inductive PushdError where
  | GetCurrentDir (source : IoError)
  | SetCurrentDir (path : Path) (source : IoError)
deriving DecidableEq, Repr

/-- The `Display` implementation that `thiserror` derives from the
`#[error(...)]` attributes on `PushdError`. -/
def PushdError.display : PushdError → String
  | .GetCurrentDir s => "Could not get current directory: " ++ s.message
  | .SetCurrentDir p s =>
      "Could not set current directory to " ++ p ++ ": " ++ s.message

/-- The `std::error::Error::source` implementation that `thiserror` derives:
both variants carry a field named `source`, so both report it. The drop
logic downcasts this to `io::Error`, which in this crate always succeeds,
so the model returns the `IoError` directly. -/
def PushdError.source : PushdError → Option IoError
  | .GetCurrentDir s => some s
  | .SetCurrentDir _ s => some s

/-- The OS environment: the process's current directory plus an oracle for
the two fallible OS calls. `getCwdErr = some e` means `env::current_dir`
fails with `e`; `setErr p = some e` means `env::set_current_dir p` fails
with `e` (leaving the current directory unchanged), `setErr p = none` means
it succeeds and the current directory becomes `p`. -/
structure World where
  cwd : Path
  getCwdErr : Option IoError
  setErr : Path → Option IoError

/-- `env::current_dir()`. -/
def World.currentDir (w : World) : Except IoError Path :=
  match w.getCwdErr with
  | some e => .error e
  | none => .ok w.cwd

/-- `env::set_current_dir(p)`: on success the world's current directory
becomes `p`; on failure the world is unchanged. -/
def World.setCurrentDir (w : World) (p : Path) : Except IoError Unit × World :=
  match w.setErr p with
  | some e => (.error e, w)
  | none => (.ok (), { w with cwd := p })

/-- The `Pushd` struct from `src/lib.rs`: the captured original directory,
the panic policy, and the released flag. -/
structure Pushd where
  orig : Path
  panic_on_err : Bool
  popped : Bool
deriving DecidableEq, Repr

/-- `Pushd::new(path)`: captures the current directory via
`env::current_dir()?` (failure becomes `GetCurrentDir` via `#[from]`), then
switches to `path` (failure becomes `SetCurrentDir { path, source }`), and
on success returns the guard with `panic_on_err = true`, `popped = false`. -/
def Pushd.new (path : Path) (w : World) : Except PushdError Pushd × World :=
  match w.currentDir with
  | .error e => (.error (.GetCurrentDir e), w)
  | .ok cwd =>
    match w.setCurrentDir path with
    | (.error e, w') => (.error (.SetCurrentDir path e), w')
    | (.ok _, w') => (.ok { orig := cwd, panic_on_err := true, popped := false }, w')

/-- `Pushd::new_no_panic(path)`: delegates to `Pushd::new` and flips
`panic_on_err` to `false` on success. -/
def Pushd.new_no_panic (path : Path) (w : World) : Except PushdError Pushd × World :=
  match Pushd.new path w with
  | (.ok pd, w') => (.ok { pd with panic_on_err := false }, w')
  | (.error e, w') => (.error e, w')

/-- `Pushd::pop(&mut self)`: a no-op returning `Ok(())` when already popped;
otherwise switches back to `orig`, mapping failure to
`SetCurrentDir { path: orig, source }` and leaving `popped` false, and on
success sets `popped := true`. The `&mut self` receiver is modelled by
returning the updated guard alongside the result and the world. -/
def Pushd.pop (pd : Pushd) (w : World) : Except PushdError Unit × Pushd × World :=
  if pd.popped then (.ok (), pd, w)
  else
    match w.setCurrentDir pd.orig with
    | (.error e, w') => (.error (.SetCurrentDir pd.orig e), pd, w')
    | (.ok _, w') => (.ok (), { pd with popped := true }, w')

/-- Observable outcome of `Drop::drop`: a normal return with no diagnostic,
a normal return after a `warn!` with the given message, or a panic with the
given message. -/
inductive DropResult where
  | ok
  | warned (msg : String)
  | panicked (msg : String)
deriving DecidableEq, Repr

/-- `Drop for Pushd`: calls `self.pop()`; on error, a lenient guard warns
`"Could not return to original dir: {e}"` and returns; a strict guard
silently returns when the error's source is an `io::Error` of kind
`NotFound`, and otherwise panics with the same message. -/
def Pushd.drop (pd : Pushd) (w : World) : DropResult × World :=
  match pd.pop w with
  | (.ok _, _, w') => (.ok, w')
  | (.error e, pd', w') =>
    if !pd'.panic_on_err then
      (.warned ("Could not return to original dir: " ++ e.display), w')
    else
      match e.source with
      | some i =>
        if i.kind = .notFound then (.ok, w')
        else (.panicked ("Could not return to original dir: " ++ e.display), w')
      | none => (.panicked ("Could not return to original dir: " ++ e.display), w')

/-- Spec-side definition for the refinement claim, following the spec's
words: `Construct(target_path, panic_on_failure)` queries the current
directory, attempts the switch to `target_path` (original directory left
unchanged on failure), and on success returns a guard holding the captured
original directory, `released = false`, and the given policy. -/
def constructSpec (path : Path) (panic_on_failure : Bool) (w : World) :
    Except PushdError Pushd × World :=
  match w.currentDir with
  | .error e => (.error (.GetCurrentDir e), w)
  | .ok cwd =>
    match w.setCurrentDir path with
    | (.error e, w') => (.error (.SetCurrentDir path e), w')
    | (.ok _, w') =>
        (.ok { orig := cwd, panic_on_err := panic_on_failure, popped := false }, w')

/-- A world where every OS call succeeds, starting in `/work`. -/
def wOk : World := { cwd := "/work", getCwdErr := none, setErr := fun _ => none }

/-- A permission-denied `io::Error`. -/
def ePerm : IoError := { kind := .permissionDenied, message := "Permission denied" }

/-- A not-found `io::Error`. -/
def eNF : IoError := { kind := .notFound, message := "No such file or directory" }

/-- A world where every `set_current_dir` call fails with `ePerm`. -/
def wSetFail : World :=
  { cwd := "/work", getCwdErr := none, setErr := fun _ => some ePerm }

/-- A world where every `set_current_dir` call fails with `eNF`. -/
def wSetNF : World :=
  { cwd := "/tmp/x", getCwdErr := none, setErr := fun _ => some eNF }

/-- A world where `current_dir` itself fails with `ePerm`. -/
def wGetFail : World :=
  { cwd := "/work", getCwdErr := some ePerm, setErr := fun _ => none }

/-- C1: from any starting directory `C`, constructing a guard (by either
constructor) for a valid target `D` succeeds, changes the current directory
to `D`, and dropping the guard unreleased restores the current directory to
`C` (in any later world where the switch back to `C` succeeds). -/
theorem new_then_drop_restores (C D : Path) (w : World)
    (hcwd : w.cwd = C) (hget : w.getCwdErr = none) (hset : w.setErr D = none) :
    (Pushd.new D w).1 = .ok ⟨C, true, false⟩ ∧
    ((Pushd.new D w).2).cwd = D ∧
    (Pushd.new_no_panic D w).1 = .ok ⟨C, false, false⟩ ∧
    ((Pushd.new_no_panic D w).2).cwd = D ∧
    (∀ w2 : World, w2.setErr C = none →
      (Pushd.drop ⟨C, true, false⟩ w2).1 = .ok ∧
      ((Pushd.drop ⟨C, true, false⟩ w2).2).cwd = C ∧
      (Pushd.drop ⟨C, false, false⟩ w2).1 = .ok ∧
      ((Pushd.drop ⟨C, false, false⟩ w2).2).cwd = C) := by
  subst hcwd
  refine ⟨?_, ?_, ?_, ?_, ?_⟩
  · simp [Pushd.new, World.currentDir, World.setCurrentDir, hget, hset]
  · simp [Pushd.new, World.currentDir, World.setCurrentDir, hget, hset]
  · simp [Pushd.new, Pushd.new_no_panic, World.currentDir, World.setCurrentDir,
      hget, hset]
  · simp [Pushd.new, Pushd.new_no_panic, World.currentDir, World.setCurrentDir,
      hget, hset]
  · intro w2 h2
    simp [Pushd.drop, Pushd.pop, World.setCurrentDir, h2]

/-- C1 witness: concrete instantiation at `C = /work`, `D = /tmp/x` in the
all-succeeding world. -/
theorem new_then_drop_restores_witness :
    wOk.cwd = "/work" ∧ wOk.getCwdErr = none ∧ wOk.setErr "/tmp/x" = none ∧
    ((Pushd.new "/tmp/x" wOk).1 = .ok ⟨"/work", true, false⟩ ∧
     ((Pushd.new "/tmp/x" wOk).2).cwd = "/tmp/x" ∧
     (Pushd.new_no_panic "/tmp/x" wOk).1 = .ok ⟨"/work", false, false⟩ ∧
     ((Pushd.new_no_panic "/tmp/x" wOk).2).cwd = "/tmp/x" ∧
     (∀ w2 : World, w2.setErr "/work" = none →
       (Pushd.drop ⟨"/work", true, false⟩ w2).1 = .ok ∧
       ((Pushd.drop ⟨"/work", true, false⟩ w2).2).cwd = "/work" ∧
       (Pushd.drop ⟨"/work", false, false⟩ w2).1 = .ok ∧
       ((Pushd.drop ⟨"/work", false, false⟩ w2).2).cwd = "/work")) :=
  ⟨rfl, rfl, rfl, new_then_drop_restores "/work" "/tmp/x" wOk rfl rfl rfl⟩

/-- C2: construction is atomic. If the switch to the target fails, `new`
returns `SetCurrentDir { path, source }` and the world (in particular the
current directory) is unchanged; if the initial `current_dir` query fails,
`new` returns `GetCurrentDir` with that error and the world is unchanged.
In both cases no guard is produced (the result is `.error`). -/
theorem new_atomic (p : Path) (w : World) :
    (∀ e, w.getCwdErr = none → w.setErr p = some e →
       Pushd.new p w = (.error (.SetCurrentDir p e), w)) ∧
    (∀ e, w.getCwdErr = some e →
       Pushd.new p w = (.error (.GetCurrentDir e), w)) := by
  constructor
  · intro e hget hset
    simp [Pushd.new, World.currentDir, World.setCurrentDir, hget, hset]
  · intro e hget
    simp [Pushd.new, World.currentDir, hget]

/-- C2 witness: a failing switch and a failing query, both at concrete
worlds. -/
theorem new_atomic_witness :
    (wSetFail.getCwdErr = none ∧ wSetFail.setErr "/tmp/x" = some ePerm ∧
      Pushd.new "/tmp/x" wSetFail =
        (.error (.SetCurrentDir "/tmp/x" ePerm), wSetFail)) ∧
    (wGetFail.getCwdErr = some ePerm ∧
      Pushd.new "/tmp/x" wGetFail = (.error (.GetCurrentDir ePerm), wGetFail)) :=
  ⟨⟨rfl, rfl, (new_atomic "/tmp/x" wSetFail).1 ePerm rfl rfl⟩,
   ⟨rfl, (new_atomic "/tmp/x" wGetFail).2 ePerm rfl⟩⟩

/-- C3: on success, the guard's `orig` is the current directory captured
before the switch (the pre-change `w.cwd`), `popped` is `false`, and
`panic_on_err` is the policy of the constructor used: `true` for `new`,
`false` for `new_no_panic`. -/
theorem new_success_guard_state (p : Path) (w : World)
    (hget : w.getCwdErr = none) (hset : w.setErr p = none) :
    Pushd.new p w =
      (.ok { orig := w.cwd, panic_on_err := true, popped := false },
       { w with cwd := p }) ∧
    Pushd.new_no_panic p w =
      (.ok { orig := w.cwd, panic_on_err := false, popped := false },
       { w with cwd := p }) := by
  constructor <;>
    simp [Pushd.new, Pushd.new_no_panic, World.currentDir, World.setCurrentDir,
      hget, hset]

/-- C3 witness: concrete instantiation in the all-succeeding world. -/
theorem new_success_guard_state_witness :
    wOk.getCwdErr = none ∧ wOk.setErr "/tmp/x" = none ∧
    (Pushd.new "/tmp/x" wOk =
       (.ok { orig := wOk.cwd, panic_on_err := true, popped := false },
        { wOk with cwd := "/tmp/x" }) ∧
     Pushd.new_no_panic "/tmp/x" wOk =
       (.ok { orig := wOk.cwd, panic_on_err := false, popped := false },
        { wOk with cwd := "/tmp/x" })) :=
  ⟨rfl, rfl, new_success_guard_state "/tmp/x" wOk rfl rfl⟩

/-- C4: both constructors implement the same capture/switch sequence
(`constructSpec`, written from the spec), differing only in the policy flag:
`new` is `constructSpec` with `panic_on_failure = true` and `new_no_panic`
is `constructSpec` with `panic_on_failure = false` — same success result,
same errors, same world effect, on every input. -/
theorem constructors_refine_spec (p : Path) (w : World) :
    Pushd.new p w = constructSpec p true w ∧
    Pushd.new_no_panic p w = constructSpec p false w := by
  constructor <;>
    cases hget : w.getCwdErr <;>
      cases hset : w.setErr p <;>
        simp [Pushd.new, Pushd.new_no_panic, constructSpec, World.currentDir,
          World.setCurrentDir, hget, hset]

/-- C5: `pop` is idempotent. When `popped` is already true, `pop` returns
`Ok` immediately, leaving the guard and the world (hence the current
directory) untouched. When an explicit `pop` succeeds, the guard it returns
has `popped = true`, so the subsequent scope-exit `drop` is a pure no-op:
result `.ok` (no diagnostic, no failure) and the world unchanged — the
restoration happens exactly once. -/
theorem pop_idempotent (pd : Pushd) (w : World) :
    (pd.popped = true → pd.pop w = (.ok (), pd, w)) ∧
    (pd.popped = false → w.setErr pd.orig = none →
      pd.pop w = (.ok (), { pd with popped := true }, { w with cwd := pd.orig }) ∧
      Pushd.drop { pd with popped := true } { w with cwd := pd.orig } =
        (.ok, { w with cwd := pd.orig })) := by
  constructor
  · intro h
    simp [Pushd.pop, h]
  · intro h hset
    constructor
    · simp [Pushd.pop, World.setCurrentDir, h, hset]
    · simp [Pushd.drop, Pushd.pop]

/-- C5 witness: a fresh guard, popped once in the all-succeeding world,
then dropped; and an already-popped guard popped again. -/
theorem pop_idempotent_witness :
    ((Pushd.mk "/work" true true).popped = true ∧
      Pushd.pop ⟨"/work", true, true⟩ wOk = (.ok (), ⟨"/work", true, true⟩, wOk)) ∧
    ((Pushd.mk "/work" true false).popped = false ∧
      wOk.setErr "/work" = none ∧
      (Pushd.pop ⟨"/work", true, false⟩ wOk =
        (.ok (), ⟨"/work", true, true⟩, { wOk with cwd := "/work" }) ∧
       Pushd.drop ⟨"/work", true, true⟩ { wOk with cwd := "/work" } =
        (.ok, { wOk with cwd := "/work" }))) :=
  ⟨⟨rfl, (pop_idempotent ⟨"/work", true, true⟩ wOk).1 rfl⟩,
   ⟨rfl, rfl, (pop_idempotent ⟨"/work", true, false⟩ wOk).2 rfl rfl⟩⟩

/-- C6: for an unreleased guard, a failed switch back makes `pop` return
`SetCurrentDir { path := orig, source := e }` with the guard unchanged — in
particular `popped` stays `false` — and the world untouched, so a later
release (here: a later `pop` in a world where the switch succeeds) retries
and performs the restoration, setting `popped := true`. A successful `pop`
sets `popped := true`. -/
theorem pop_failure_leaves_unpopped (pd : Pushd) (w : World)
    (h : pd.popped = false) :
    (∀ e, w.setErr pd.orig = some e →
      pd.pop w = (.error (.SetCurrentDir pd.orig e), pd, w) ∧
      (∀ w2 : World, w2.setErr pd.orig = none →
        Pushd.pop (pd.pop w).2.1 w2 =
          (.ok (), { pd with popped := true }, { w2 with cwd := pd.orig }))) ∧
    (w.setErr pd.orig = none → ((pd.pop w).2.1).popped = true) := by
  constructor
  · intro e hset
    constructor
    · simp [Pushd.pop, World.setCurrentDir, h, hset]
    · intro w2 h2
      simp [Pushd.pop, World.setCurrentDir, h, hset, h2]
  · intro hset
    simp [Pushd.pop, World.setCurrentDir, h, hset]

/-- C6 witness: an unreleased guard whose restore fails with a permission
error, then succeeds on retry in the all-succeeding world. -/
theorem pop_failure_leaves_unpopped_witness :
    (Pushd.mk "/work" true false).popped = false ∧
    wSetFail.setErr "/work" = some ePerm ∧
    (Pushd.pop ⟨"/work", true, false⟩ wSetFail =
       (.error (.SetCurrentDir "/work" ePerm), ⟨"/work", true, false⟩, wSetFail) ∧
     (∀ w2 : World, w2.setErr "/work" = none →
       Pushd.pop (Pushd.pop ⟨"/work", true, false⟩ wSetFail).2.1 w2 =
         (.ok (), ⟨"/work", true, true⟩, { w2 with cwd := "/work" }))) :=
  ⟨rfl, rfl,
   (pop_failure_leaves_unpopped ⟨"/work", true, false⟩ wSetFail rfl).1 ePerm rfl⟩

/-- C7: a lenient guard (`panic_on_err = false`) never panics during drop:
for every world, the drop result is not `panicked`; and whenever the
restore switch fails (with any error, the not-found case included), drop
returns normally after warning `"Could not return to original dir: {e}"`,
with the world — hence the current directory — left exactly where the
failed switch left it. -/
theorem drop_lenient_never_panics (pd : Pushd) (w : World)
    (hp : pd.panic_on_err = false) :
    (∀ m, (pd.drop w).1 ≠ .panicked m) ∧
    (pd.popped = false → ∀ e, w.setErr pd.orig = some e →
      pd.drop w =
        (.warned ("Could not return to original dir: " ++
          PushdError.display (.SetCurrentDir pd.orig e)), w)) := by
  constructor
  · intro m
    cases hpop : pd.popped <;>
      cases hset : w.setErr pd.orig <;>
        simp [Pushd.drop, Pushd.pop, World.setCurrentDir, hp, hpop, hset]
  · intro hpop e hset
    simp [Pushd.drop, Pushd.pop, World.setCurrentDir, hp, hpop, hset]

/-- C7 witness: a lenient guard whose restore fails with `NotFound` warns
and returns normally. -/
theorem drop_lenient_never_panics_witness :
    (Pushd.mk "/work" false false).panic_on_err = false ∧
    (Pushd.mk "/work" false false).popped = false ∧
    wSetNF.setErr "/work" = some eNF ∧
    ((∀ m, (Pushd.drop ⟨"/work", false, false⟩ wSetNF).1 ≠ .panicked m) ∧
     Pushd.drop ⟨"/work", false, false⟩ wSetNF =
       (.warned ("Could not return to original dir: " ++
         PushdError.display (.SetCurrentDir "/work" eNF)), wSetNF)) :=
  ⟨rfl, rfl, rfl,
   ⟨(drop_lenient_never_panics ⟨"/work", false, false⟩ wSetNF rfl).1,
    (drop_lenient_never_panics ⟨"/work", false, false⟩ wSetNF rfl).2 rfl eNF rfl⟩⟩

/-- C8: a strict guard (`panic_on_err = true`) whose restore fails with an
underlying `io::Error` of kind `NotFound` drops silently as a no-op — the
result is `.ok`: no panic, no warning — with the world unchanged. The
suppression is specific to the strict policy: under the lenient policy the
very same failure still produces a warning, not a silent return. -/
theorem drop_strict_notfound_silent (pd : Pushd) (w : World)
    (hpop : pd.popped = false) (e : IoError) (hk : e.kind = .notFound)
    (hset : w.setErr pd.orig = some e) :
    (pd.panic_on_err = true → pd.drop w = (.ok, w)) ∧
    (pd.panic_on_err = false →
      pd.drop w =
        (.warned ("Could not return to original dir: " ++
          PushdError.display (.SetCurrentDir pd.orig e)), w)) := by
  constructor <;>
    intro hp <;>
      simp [Pushd.drop, Pushd.pop, World.setCurrentDir, PushdError.source,
        hpop, hset, hp, hk]

/-- C8 witness: strict and lenient guards over the same vanished original
directory. -/
theorem drop_strict_notfound_silent_witness :
    (Pushd.mk "/work" true false).popped = false ∧
    eNF.kind = .notFound ∧
    wSetNF.setErr "/work" = some eNF ∧
    Pushd.drop ⟨"/work", true, false⟩ wSetNF = (.ok, wSetNF) ∧
    Pushd.drop ⟨"/work", false, false⟩ wSetNF =
      (.warned ("Could not return to original dir: " ++
        PushdError.display (.SetCurrentDir "/work" eNF)), wSetNF) :=
  ⟨rfl, rfl, rfl,
   (drop_strict_notfound_silent ⟨"/work", true, false⟩ wSetNF rfl eNF rfl rfl).1 rfl,
   (drop_strict_notfound_silent ⟨"/work", false, false⟩ wSetNF rfl eNF rfl rfl).2 rfl⟩

/-- C9: a strict guard whose restore fails with any underlying error kind
other than `NotFound` panics during drop, and the panic message names both
the attempted path (the original directory) and the underlying OS error
text. -/
theorem drop_strict_panics (pd : Pushd) (w : World)
    (hp : pd.panic_on_err = true) (hpop : pd.popped = false) (e : IoError)
    (hk : e.kind ≠ .notFound) (hset : w.setErr pd.orig = some e) :
    pd.drop w =
      (.panicked ("Could not return to original dir: " ++
        PushdError.display (.SetCurrentDir pd.orig e)), w) ∧
    (∃ s1 s2, "Could not return to original dir: " ++
        PushdError.display (.SetCurrentDir pd.orig e) = s1 ++ pd.orig ++ s2) ∧
    (∃ t1 t2, "Could not return to original dir: " ++
        PushdError.display (.SetCurrentDir pd.orig e) = t1 ++ e.message ++ t2) := by
  refine ⟨?_, ?_, ?_⟩
  · simp [Pushd.drop, Pushd.pop, World.setCurrentDir, PushdError.source,
      hpop, hset, hp, hk]
  · refine ⟨"Could not return to original dir: " ++
      "Could not set current directory to ", ": " ++ e.message, ?_⟩
    simp [PushdError.display, String.append_assoc]
    rw [← String.append_assoc]
    rfl
  · refine ⟨"Could not return to original dir: " ++
      ("Could not set current directory to " ++ pd.orig ++ ": "), "", ?_⟩
    simp [PushdError.display, String.append_assoc, String.append_empty]

/-- C9 witness: a strict guard whose restore fails with a permission
error. -/
theorem drop_strict_panics_witness :
    (Pushd.mk "/work" true false).panic_on_err = true ∧
    (Pushd.mk "/work" true false).popped = false ∧
    ePerm.kind ≠ ErrorKind.notFound ∧
    wSetFail.setErr "/work" = some ePerm ∧
    (Pushd.drop ⟨"/work", true, false⟩ wSetFail =
       (.panicked ("Could not return to original dir: " ++
         PushdError.display (.SetCurrentDir "/work" ePerm)), wSetFail) ∧
     (∃ s1 s2, "Could not return to original dir: " ++
        PushdError.display (.SetCurrentDir "/work" ePerm) = s1 ++ "/work" ++ s2) ∧
     (∃ t1 t2, "Could not return to original dir: " ++
        PushdError.display (.SetCurrentDir "/work" ePerm) =
          t1 ++ ePerm.message ++ t2)) :=
  ⟨rfl, rfl, by decide, rfl,
   drop_strict_panics ⟨"/work", true, false⟩ wSetFail rfl rfl ePerm (by decide) rfl⟩

/-- C10: every error `pop` returns is `SetCurrentDir` with the guard's own
`orig` as its path, never `GetCurrentDir`, and its `source` is the
`io::Error` of the failed switch; moreover `pop` only ever mutates the
`popped` flag — `orig` and `panic_on_err` come out unchanged on every
call. -/
theorem pop_error_shape (pd : Pushd) (w : World) :
    (∀ e, (pd.pop w).1 = .error e →
      ∃ i, e = .SetCurrentDir pd.orig i ∧ PushdError.source e = some i) ∧
    ((pd.pop w).2.1.orig = pd.orig ∧
     (pd.pop w).2.1.panic_on_err = pd.panic_on_err) := by
  constructor
  · intro e he
    cases hpop : pd.popped <;>
      cases hset : w.setErr pd.orig <;>
        simp [Pushd.pop, World.setCurrentDir, hpop, hset] at he
    case false.some i =>
      subst he
      exact ⟨i, rfl, rfl⟩
  · cases hpop : pd.popped <;>
      cases hset : w.setErr pd.orig <;>
        simp [Pushd.pop, World.setCurrentDir, hpop, hset]

/-- C10 witness: a failing `pop` at a concrete guard and world. -/
theorem pop_error_shape_witness :
    (Pushd.pop ⟨"/work", true, false⟩ wSetFail).1 =
      .error (.SetCurrentDir "/work" ePerm) ∧
    (∃ i, PushdError.SetCurrentDir "/work" ePerm = .SetCurrentDir "/work" i ∧
      PushdError.source (.SetCurrentDir "/work" ePerm) = some i) :=
  ⟨rfl,
   (pop_error_shape ⟨"/work", true, false⟩ wSetFail).1
     (.SetCurrentDir "/work" ePerm) rfl⟩

end Pushdlib
